import Mathlib

/-!
Shallow embedding of `src/utils/parameterMapper.js` from the
mcp-assistant-sdk repository, together with proofs about the claims of
its specification.

The mapper receives a loosely-typed parameter object and produces the
normalized parameter object expected by the storage SDK.  JavaScript
objects are modelled as insertion-ordered association lists
`List (String × Value)` of own properties; property read, property
write and `Object.assign` are given their ECMAScript semantics on that
model, including the `Object.prototype` chain that every plain object
literal inherits: a read of an own-absent key such as `toString`,
`constructor` or `__proto__` yields a truthy inherited member rather
than `undefined`, and an assignment to `__proto__` invokes the
inherited accessor setter instead of creating an own entry.  The
mapper's methods are strict-mode class methods, so calling a missing
method on such an inherited member, or assigning a property to a truthy
primitive, raises a `TypeError`; those are the only failure points of
`mapParameters` and they are modelled with `Except`.
-/

/-- JavaScript values that can appear in a parameter map: strings,
numbers, booleans, `null`, `undefined`, `Date` objects (an invalid
date, whose time value is NaN, is `date none`) and plain objects. -/
inductive Value where
  | str (s : String)
  | num (n : Int)
  | bool (b : Bool)
  | null
  | undef
  | date (timestamp : Option Int)
  | obj (fields : List (String × Value))

/-- ECMAScript truthiness of a `Value` (`Boolean(v)`).  Every object,
including an invalid `Date`, is truthy; `""`, `0`, `false`, `null` and
`undefined` are falsy. -/
def jsTruthy : Value → Bool
  | .str s => !(s = "")
  | .num n => !(n = 0)
  | .bool b => b
  | .null => false
  | .undef => false
  | .date _ => true
  | .obj _ => true

/-- `v === undefined || v === null`, the skip test at line 118 of
`mapParameters`. -/
def jsNullish : Value → Bool
  | .null => true
  | .undef => true
  | _ => false

/-- Property read `o[key]` on an object modelled as an ordered
association list: the first binding for `key`, if any. -/
def assocGet {α : Type} : List (String × α) → String → Option α
  | [], _ => none
  | (k, v) :: rest, key => if key = k then some v else assocGet rest key

/-- Property write `o[key] = value`: an existing binding is updated in
place (JavaScript keeps the original insertion position), a new key is
appended at the end. -/
def assocSet {α : Type} : List (String × α) → String → α → List (String × α)
  | [], key, value => [(key, value)]
  | (k, v) :: rest, key, value =>
      if key = k then (k, value) :: rest else (k, v) :: assocSet rest key value

/-- `Object.assign(target, source)` (line 138): every entry of `source`
is written into `target` in `source` key order. -/
def objAssign (target source : List (String × Value)) : List (String × Value) :=
  source.foldl (fun acc kv => assocSet acc kv.1 kv.2) target

/-- `Array.prototype.includes` on an array of strings, as used by
`convertType` on the two conversion registries. -/
def jsIncludes : List String → String → Bool
  | [], _ => false
  | x :: rest, key => if key = x then true else jsIncludes rest key

/-- The property names of `Object.prototype`, inherited by every plain
object literal.  They are non-enumerable (hence absent from
`Object.entries`) but visible to property reads: on an object with no
own entry for such a key, `o[key]` yields the truthy inherited function
— or, for the `__proto__` accessor, the prototype object — instead of
`undefined`. -/
def objectPrototypeKeys : List String :=
  ["constructor", "hasOwnProperty", "isPrototypeOf", "propertyIsEnumerable",
   "toLocaleString", "toString", "valueOf", "__defineGetter__",
   "__defineSetter__", "__lookupGetter__", "__lookupSetter__", "__proto__"]

/-- Outcome of the property read `this.knownMappings[key]` (line 120)
with the prototype chain: an own string entry of the table, a truthy
inherited `Object.prototype` member (a function, or the prototype
object itself for `__proto__`), or `undefined`. -/
inductive TableLookup where
  | ownVal (target : String)
  | inherited
  | missing

/-- `this.knownMappings[key]` on the table object: own entries shadow
the prototype; an own-absent key falls through to `Object.prototype`
before coming back `undefined`. -/
def protoLookup (l : List (String × String)) (key : String) : TableLookup :=
  match assocGet l key with
  | some target => .ownVal target
  | none => if jsIncludes objectPrototypeKeys key then .inherited else .missing

/-- Helper for `jsSplitDot`: walks the character list, cutting at every
dot; `acc` holds the current segment reversed. -/
def splitDotAux : List Char → List Char → List String
  | [], acc => [String.mk acc.reverse]
  | c :: cs, acc =>
      if c = '.' then String.mk acc.reverse :: splitDotAux cs []
      else splitDotAux cs (c :: acc)

/-- `mappedKey.split(".")` (line 153). -/
def jsSplitDot (s : String) : List String := splitDotAux s.data []

/-- `mappedKey.includes(".")` (line 124). -/
def jsIncludesDot (s : String) : Bool := s.data.contains '.'

/-- Modelled from the ECMAScript `Date(string)` constructor as invoked
by `convertType` (line 166).  The host constructor never throws: a
string it cannot parse yields an Invalid Date, i.e. `none`.  Only the
ISO `YYYY-MM-DD` calendar-date form is modelled here; the time value is
the day count from the epoch in milliseconds. -/
def jsDateParse (s : String) : Option Int :=
  match s.data with
  | [y1, y2, y3, y4, '-', m1, m2, '-', d1, d2] =>
      if y1.isDigit && y2.isDigit && y3.isDigit && y4.isDigit &&
         m1.isDigit && m2.isDigit && d1.isDigit && d2.isDigit then
        let year : Int :=
          (y1.toNat - '0'.toNat) * 1000 + (y2.toNat - '0'.toNat) * 100 +
          (y3.toNat - '0'.toNat) * 10 + (y4.toNat - '0'.toNat)
        let month : Nat := (m1.toNat - '0'.toNat) * 10 + (m2.toNat - '0'.toNat)
        let day : Nat := (d1.toNat - '0'.toNat) * 10 + (d2.toNat - '0'.toNat)
        if 1 ≤ month && month ≤ 12 && 1 ≤ day && day ≤ 31 then
          let yr : Int := if month ≤ 2 then year - 1 else year
          let era : Int := (if 0 ≤ yr then yr else yr - 399) / 400
          let yoe : Int := yr - era * 400
          let doy : Int := (153 * ((month + 9) % 12 : Nat) + 2) / 5 + day - 1
          let doe : Int := yoe * 365 + yoe / 4 - yoe / 100 + doy
          some ((era * 146097 + doe - 719468) * 86400000)
        else none
      else none
  | _ => none

/-- `new Date(value)` for each shape of input value the mapper can
pass; the constructor is total (it never throws for these inputs, an
unparseable argument giving an Invalid Date). -/
def jsNewDate : Value → Value
  | .str s => .date (jsDateParse s)
  | .num n => .date (some n)
  | .bool b => .date (some (if b then 1 else 0))
  | .null => .date (some 0)
  | .undef => .date none
  | .date t => .date t
  | .obj _ => .date none

/-- The mapper's state: the known source-to-target table and the two
type-conversion registries (`knownMappings`, `dateParameters`,
`booleanParameters` of the `ParameterMapper` class). -/
structure ParameterMapper where
  knownMappings : List (String × String)
  dateParameters : List String
  booleanParameters : List String

/-- The singleton built by the `ParameterMapper` constructor
(lines 13-100), transcribed entry for entry.  The source object literal
lists `ifNoneMatch` twice with the same target; in JavaScript the
property keeps its first position, which first-match `assocGet` also
gives, so both occurrences are kept. -/
def defaultMapper : ParameterMapper where
  knownMappings := [
    ("bucketName", "Bucket"),
    ("fileName", "Key"),
    ("fileContent", "Body"),
    ("objectLockEnabledForBucket", "ObjectLockEnabledForBucket"),
    ("acl", "ACL"),
    ("locationConstraint", "CreateBucketConfiguration.LocationConstraint"),
    ("objectOwnership", "ObjectOwnership"),
    ("ifMatch", "IfMatch"),
    ("ifModifiedSince", "IfModifiedSince"),
    ("ifNoneMatch", "IfNoneMatch"),
    ("ifUnmodifiedSince", "IfUnmodifiedSince"),
    ("range", "Range"),
    ("responseCacheControl", "ResponseCacheControl"),
    ("responseContentType", "ResponseContentType"),
    ("responseContentDisposition", "ResponseContentDisposition"),
    ("responseContentEncoding", "ResponseContentEncoding"),
    ("responseContentLanguage", "ResponseContentLanguage"),
    ("responseExpires", "ResponseExpires"),
    ("versionId", "VersionId"),
    ("sseCustomerAlgorithm", "SSECustomerAlgorithm"),
    ("sseCustomerKey", "SSECustomerKey"),
    ("sseCustomerKeyMD5", "SSECustomerKeyMD5"),
    ("requestPayer", "RequestPayer"),
    ("partNumber", "PartNumber"),
    ("expectedBucketOwner", "ExpectedBucketOwner"),
    ("checksumMode", "ChecksumMode"),
    ("cacheControl", "CacheControl"),
    ("contentDisposition", "ContentDisposition"),
    ("contentEncoding", "ContentEncoding"),
    ("contentLanguage", "ContentLanguage"),
    ("contentLength", "ContentLength"),
    ("contentMD5", "ContentMD5"),
    ("contentType", "ContentType"),
    ("checksumAlgorithm", "ChecksumAlgorithm"),
    ("checksumCRC32", "ChecksumCRC32"),
    ("checksumCRC32C", "ChecksumCRC32C"),
    ("checksumSHA1", "ChecksumSHA1"),
    ("checksumSHA256", "ChecksumSHA256"),
    ("expires", "Expires"),
    ("ifNoneMatch", "IfNoneMatch"),
    ("grantFullControl", "GrantFullControl"),
    ("grantRead", "GrantRead"),
    ("grantReadACP", "GrantReadACP"),
    ("grantWriteACP", "GrantWriteACP"),
    ("metadata", "Metadata"),
    ("serverSideEncryption", "ServerSideEncryption"),
    ("storageClass", "StorageClass"),
    ("websiteRedirectLocation", "WebsiteRedirectLocation"),
    ("sseKMSKeyId", "SSEKMSKeyId"),
    ("sseKMSEncryptionContext", "SSEKMSEncryptionContext"),
    ("bucketKeyEnabled", "BucketKeyEnabled"),
    ("tagging", "Tagging"),
    ("objectLockMode", "ObjectLockMode"),
    ("objectLockRetainUntilDate", "ObjectLockRetainUntilDate"),
    ("objectLockLegalHoldStatus", "ObjectLockLegalHoldStatus"),
    ("maxBuckets", "MaxBuckets"),
    ("continuationToken", "ContinuationToken"),
    ("prefix", "Prefix"),
    ("bucketRegion", "BucketRegion"),
    ("mfa", "MFA"),
    ("bypassGovernanceRetention", "BypassGovernanceRetention")]
  dateParameters := [
    "IfModifiedSince",
    "IfUnmodifiedSince",
    "ResponseExpires",
    "Expires",
    "ObjectLockRetainUntilDate"]
  booleanParameters := ["ObjectLockEnabledForBucket", "BucketKeyEnabled"]

/-- The one runtime failure the mapper can hit: a strict-mode
`TypeError` from assigning a property to a truthy primitive in
`handleNestedParameter`. -/
inductive MapErr where
  | typeError

/-- `convertType(key, value)` (lines 164-174): date registry first,
then boolean registry (`value === true || value === "true"`), else the
value unchanged. -/
def convertType (m : ParameterMapper) (key : String) (value : Value) : Value :=
  if jsIncludes m.dateParameters key then jsNewDate value
  else if jsIncludes m.booleanParameters key then
    .bool (match value with
           | .bool b => b
           | .str s => s == "true"
           | _ => false)
  else value

/-- `handleNestedParameter(result, mappedKey, value)` (lines 152-159).
When the split has exactly two parts, the `!result[parent]` read walks
the prototype chain: for an own-absent parent that is an
`Object.prototype` member (such as `constructor` or `__proto__`) it
sees the truthy inherited object, so no fresh sub-object is created and
the child write lands on that inherited member — `result` gains no own
entry and is returned unchanged (the expando on the shared prototype
member is not recorded by this value model).  An own-absent,
non-inherited or falsy parent is replaced by a fresh object before the
child write; a truthy own object receives the child property; a truthy
own primitive makes the strict-mode child assignment throw `TypeError`.
A `Date` object is truthy and accepts an expando property, which this
value model does not record, so the result object is returned
unchanged.  Any other split length does nothing. -/
def handleNestedParameter (result : List (String × Value)) (mappedKey : String)
    (value : Value) : Except MapErr (List (String × Value)) :=
  match jsSplitDot mappedKey with
  | [parent, child] =>
      match assocGet result parent with
      | none =>
          if jsIncludes objectPrototypeKeys parent then .ok result
          else .ok (assocSet result parent (.obj [(child, value)]))
      | some pv =>
          if jsTruthy pv then
            match pv with
            | .obj fields => .ok (assocSet result parent (.obj (assocSet fields child value)))
            | .date _ => .ok result
            | _ => .error .typeError
          else .ok (assocSet result parent (.obj [(child, value)]))
  | _ => .ok result

/-- `smartCaseConversion(camelCaseKey)` (lines 180-183):
`charAt(0).toUpperCase() + slice(1)`. -/
def smartCaseConversion (camelCaseKey : String) : String :=
  match camelCaseKey.data with
  | [] => ""
  | c :: rest => String.mk (c.toUpper :: rest)

/-- One iteration of the `for...of` loop of `mapParameters`
(lines 117-135) over the pair of accumulators `(result,
unmappedParams)`.  A nullish value is skipped before the table is read.
The `this.knownMappings[key]` read then walks the prototype chain: an
own entry is routed by truthiness to the fallback (empty-string
target), the nested handler, or the flat converted write; a key that
exists only as an inherited `Object.prototype` member reads back a
truthy function (or, for `__proto__`, the prototype object), `if
(mappedKey)` passes, and `mappedKey.includes(".")` calls a member the
inherited value does not have — a `TypeError`; a genuinely missing key
goes to the fallback.  A flat write whose target is the string
`"__proto__"` (registerable only through `addMapping`) invokes the
inherited accessor setter and creates no own entry.  The fallback key
can equal `"__proto__"` only for the input key `"__proto__"`, which
throws at the table read, so the `unmappedParams` write and the final
`Object.assign` never reach that accessor. -/
def mapStep (m : ParameterMapper)
    (acc : List (String × Value) × List (String × Value)) (kv : String × Value) :
    Except MapErr (List (String × Value) × List (String × Value)) :=
  if jsNullish kv.2 then .ok acc
  else
    match protoLookup m.knownMappings kv.1 with
    | .ownVal mappedKey =>
        if mappedKey = "" then
          .ok (acc.1, assocSet acc.2 (smartCaseConversion kv.1) kv.2)
        else if jsIncludesDot mappedKey then
          match handleNestedParameter acc.1 mappedKey kv.2 with
          | .ok r => .ok (r, acc.2)
          | .error e => .error e
        else
          .ok ((if mappedKey = "__proto__" then acc.1
                else assocSet acc.1 mappedKey (convertType m mappedKey kv.2)), acc.2)
    | .inherited => .error .typeError
    | .missing => .ok (acc.1, assocSet acc.2 (smartCaseConversion kv.1) kv.2)

/-- The `for...of` loop of `mapParameters`, iterating `mapStep` over
the entries in the input's own key order; a thrown `TypeError` aborts
the loop and propagates. -/
def mapLoop (m : ParameterMapper) :
    List (String × Value) → List (String × Value) × List (String × Value) →
    Except MapErr (List (String × Value) × List (String × Value))
  | [], acc => .ok acc
  | kv :: rest, acc =>
      match mapStep m acc kv with
      | .ok acc2 => mapLoop m rest acc2
      | .error e => .error e

/-- `mapParameters(inputParams)` (lines 108-147): run the loop starting
from empty `result` and `unmappedParams`, then
`Object.assign(result, unmappedParams)` (line 138).  The `options`
argument of the source is never read and is omitted; the `console.log`
calls do not affect the result. -/
def mapParameters (m : ParameterMapper) (inputParams : List (String × Value)) :
    Except MapErr (List (String × Value)) :=
  match mapLoop m inputParams ([], []) with
  | .ok (result, unmapped) => .ok (objAssign result unmapped)
  | .error e => .error e

/-- `addMapping(camelCase, pascalCase, type)` (lines 188-198): the
write `this.knownMappings[camelCase] = pascalCase` creates or
overwrites an own table entry — except for the source key
`"__proto__"`, where the assignment invokes the inherited accessor
setter (which ignores the non-object string value) and registers
nothing.  It then pushes the target onto the date registry when `type`
is `"date"`, else onto the boolean registry when `type` is
`"boolean"`; the registries are real arrays, so these pushes happen
regardless of the table write. -/
def addMapping (m : ParameterMapper) (camelCase pascalCase : String)
    (type : Option String) : ParameterMapper where
  knownMappings :=
    if camelCase = "__proto__" then m.knownMappings
    else assocSet m.knownMappings camelCase pascalCase
  dateParameters :=
    if type = some "date" then m.dateParameters ++ [pascalCase] else m.dateParameters
  booleanParameters :=
    if type = some "date" then m.booleanParameters
    else if type = some "boolean" then m.booleanParameters ++ [pascalCase]
    else m.booleanParameters


theorem assocGet_mem {α : Type} (l : List (String × α)) (k : String) (v : α)
    (h : assocGet l k = some v) : v ∈ l.map Prod.snd := by
  induction l with
  | nil => simp [assocGet] at h
  | cons kv rest ih =>
    obtain ⟨k0, v0⟩ := kv
    rw [assocGet] at h
    split at h
    · simp at h; simp [h]
    · simpa using Or.inr (ih h)

theorem assocGet_set_self {α : Type} (l : List (String × α)) (k : String) (v : α) :
    assocGet (assocSet l k v) k = some v := by
  induction l with
  | nil => simp [assocSet, assocGet]
  | cons kv rest ih =>
    obtain ⟨k0, v0⟩ := kv
    rw [assocSet]
    split
    · rename_i hk; rw [assocGet]; simp [hk]
    · rename_i hk; rw [assocGet]; simp [hk, ih]

theorem jsIncludesDot_ne_empty (s : String) (h : jsIncludesDot s = true) : ¬ s = "" := by
  intro he
  subst he
  simp [jsIncludesDot, List.contains] at h

theorem default_targets_dot :
    ∀ t ∈ defaultMapper.knownMappings.map Prod.snd, jsIncludesDot t = true →
      t = "CreateBucketConfiguration.LocationConstraint" := by decide

theorem default_no_proto_target :
    "__proto__" ∉ defaultMapper.knownMappings.map Prod.snd := by decide

theorem addMapping_knownMappings (m : ParameterMapper) (s t : String) (kind : Option String) :
    (addMapping m s t kind).knownMappings =
      if s = "__proto__" then m.knownMappings else assocSet m.knownMappings s t := rfl

theorem addMapping_dateParameters (m : ParameterMapper) (s t : String) (kind : Option String) :
    (addMapping m s t kind).dateParameters =
      if kind = some "date" then m.dateParameters ++ [t] else m.dateParameters := rfl

theorem addMapping_booleanParameters (m : ParameterMapper) (s t : String) (kind : Option String) :
    (addMapping m s t kind).booleanParameters =
      if kind = some "date" then m.booleanParameters
      else if kind = some "boolean" then m.booleanParameters ++ [t]
      else m.booleanParameters := rfl

/-- Claim C2, counterexample.  `map` on a date-valued target with the
unparseable string `"not-a-date"` does not raise: it returns normally
(no `TypeError`, the only error the mapper can produce), carrying an
Invalid Date value. -/
theorem c2_counterexample :
    mapParameters defaultMapper [("ifModifiedSince", Value.str "not-a-date")] =
      Except.ok [("IfModifiedSince", Value.date none)] ∧
    mapParameters defaultMapper [("ifModifiedSince", Value.str "not-a-date")] ≠
      Except.error MapErr.typeError := by
  refine ⟨rfl, fun h => ?_⟩
  have base : mapParameters defaultMapper [("ifModifiedSince", Value.str "not-a-date")] =
      Except.ok [("IfModifiedSince", Value.date none)] := rfl
  exact Except.noConfusion (base.symm.trans h)

/-- Claim C2, amended.  For a date-valued target key, an unparseable
value does not raise a conversion error: the `Date` constructor yields
an Invalid Date (`date none`), `convertType` returns it, and `map`
returns normally with that value in the output. -/
theorem c2_amended :
    jsDateParse "not-a-date" = none ∧
    convertType defaultMapper "IfModifiedSince" (Value.str "not-a-date") = Value.date none ∧
    mapParameters defaultMapper [("ifModifiedSince", Value.str "not-a-date")] =
      Except.ok [("IfModifiedSince", Value.date none)] :=
  ⟨rfl, rfl, rfl⟩

/-- Claim C3 (refuted by the code).  `map` is not total: for the input
key `toString`, own-absent from the table but inherited from
`Object.prototype`, `this.knownMappings["toString"]` reads back the
truthy inherited function, the `if (mappedKey)` guard passes, and
`mappedKey.includes(".")` calls a member a function does not have —
`mapParameters({toString: "x"})` throws `TypeError` instead of
returning a NormalizedOutput. -/
theorem c3_failing_input :
    mapParameters defaultMapper [("toString", Value.str "x")] =
      Except.error MapErr.typeError := rfl

/-- Claim C4, counterexample.  `addMapping` does not preserve
disjointness of the conversion registries: registering a new source key
for the already date-valued target `IfModifiedSince` with kind
`"boolean"` puts that target key in both registries at once. -/
theorem c4_counterexample :
    "IfModifiedSince" ∈
      (addMapping defaultMapper "retryDate" "IfModifiedSince" (some "boolean")).dateParameters ∧
    "IfModifiedSince" ∈
      (addMapping defaultMapper "retryDate" "IfModifiedSince" (some "boolean")).booleanParameters :=
  ⟨by decide, by decide⟩

/-- Claim C4, amended.  The constructor's date and boolean registries
are disjoint, and `addMapping` preserves disjointness only under the
side condition that the target key is not already registered in the
other set — the method itself performs no such check. -/
theorem c4_amended (m : ParameterMapper) (s t : String) (kind : Option String)
    (hdisj : ∀ x ∈ m.dateParameters, x ∉ m.booleanParameters)
    (hd : kind = some "date" → t ∉ m.booleanParameters)
    (hb : kind = some "boolean" → t ∉ m.dateParameters) :
    ∀ x ∈ (addMapping m s t kind).dateParameters,
      x ∉ (addMapping m s t kind).booleanParameters := by
  intro x hx hx2
  rw [addMapping_dateParameters] at hx
  rw [addMapping_booleanParameters] at hx2
  by_cases h1 : kind = some "date"
  · rw [if_pos h1] at hx
    rw [if_pos h1] at hx2
    rcases List.mem_append.mp hx with hx | hx
    · exact hdisj x hx hx2
    · rw [List.mem_singleton] at hx
      subst hx
      exact hd h1 hx2
  · rw [if_neg h1] at hx
    rw [if_neg h1] at hx2
    by_cases h2 : kind = some "boolean"
    · rw [if_pos h2] at hx2
      rcases List.mem_append.mp hx2 with hx2 | hx2
      · exact hdisj x hx hx2
      · rw [List.mem_singleton] at hx2
        subst hx2
        exact hb h2 hx
    · rw [if_neg h2] at hx2
      exact hdisj x hx hx2

/-- Claim C4, witness: the constructor registries are disjoint and a
guarded extension with a fresh boolean target stays disjoint. -/
theorem c4_amended_witness :
    (∀ x ∈ defaultMapper.dateParameters, x ∉ defaultMapper.booleanParameters) ∧
    (∀ x ∈ (addMapping defaultMapper "newParam" "NewParam" (some "boolean")).dateParameters,
        x ∉ (addMapping defaultMapper "newParam" "NewParam" (some "boolean")).booleanParameters) :=
  ⟨by decide, c4_amended defaultMapper "newParam" "NewParam" (some "boolean") (by decide)
    (fun h => absurd h (by decide)) (fun _ => by decide)⟩

/-- Claim C7.  For a target key registered as boolean-valued (and, as
in the shipped registries, not date-valued), `convertType` always
returns a boolean, and it returns `true` exactly when the value is the
boolean `true` or the case-sensitive string `"true"`; every other
value, `"false"`, `false`, `"yes"`, `"True"` included, yields
`false`. -/
theorem c7_boolean_strict (m : ParameterMapper) (k : String) (v : Value)
    (hd : jsIncludes m.dateParameters k = false)
    (hb : jsIncludes m.booleanParameters k = true) :
    (∃ b : Bool, convertType m k v = Value.bool b) ∧
    (convertType m k v = Value.bool true ↔ v = Value.bool true ∨ v = Value.str "true") := by
  constructor
  · refine ⟨(match v with
      | .bool b => b
      | .str s => s == "true"
      | _ => false), ?_⟩
    simp only [convertType, hd, hb]
    rfl
  · simp only [convertType, hd, hb]
    cases v <;> simp

/-- Claim C7, witness at the registry key `BucketKeyEnabled` and the
truthy-but-not-`"true"` value `"yes"`. -/
theorem c7_boolean_strict_witness :
    jsIncludes defaultMapper.dateParameters "BucketKeyEnabled" = false ∧
    jsIncludes defaultMapper.booleanParameters "BucketKeyEnabled" = true ∧
    (convertType defaultMapper "BucketKeyEnabled" (Value.str "yes") = Value.bool true ↔
      Value.str "yes" = Value.bool true ∨ Value.str "yes" = Value.str "true") :=
  ⟨rfl, rfl, (c7_boolean_strict defaultMapper "BucketKeyEnabled" (Value.str "yes") rfl rfl).2⟩

/-- Claim C8, counterexample.  `addMapping` does not register an entry
for every source key: for `"__proto__"` the write
`this.knownMappings["__proto__"] = t` invokes the inherited accessor
setter and creates no own entry, the table is left unchanged, and a
subsequent `map` call on that key throws `TypeError` at the inherited
lookup instead of using the registration. -/
theorem c8_counterexample :
    (addMapping defaultMapper "__proto__" "Proto" none).knownMappings =
      defaultMapper.knownMappings ∧
    assocGet (addMapping defaultMapper "__proto__" "Proto" none).knownMappings
      "__proto__" = none ∧
    mapParameters (addMapping defaultMapper "__proto__" "Proto" none)
      [("__proto__", Value.str "x")] = Except.error MapErr.typeError :=
  ⟨rfl, rfl, rfl⟩

/-- Claim C8, amended.  For every source key other than `"__proto__"`,
`addMapping` registers the entry, overwriting any prior mapping for
that source key, and the registration takes effect for subsequent `map`
calls: after `addMapping("newParam", "NewParam", "boolean")`,
`map({newParam: "true"})` is `{NewParam: true}`. -/
theorem c8_extend (m : ParameterMapper) (s t : String) (kind : Option String)
    (hs : ¬ s = "__proto__") :
    assocGet (addMapping m s t kind).knownMappings s = some t ∧
    mapParameters (addMapping defaultMapper "newParam" "NewParam" (some "boolean"))
        [("newParam", Value.str "true")] = Except.ok [("NewParam", Value.bool true)] := by
  refine ⟨?_, rfl⟩
  rw [addMapping_knownMappings, if_neg hs]
  exact assocGet_set_self m.knownMappings s t

/-- Claim C8, witness at the ordinary source key `newParam`. -/
theorem c8_extend_witness :
    (¬ "newParam" = "__proto__") ∧
    assocGet (addMapping defaultMapper "newParam" "NewParam" (some "boolean")).knownMappings
      "newParam" = some "NewParam" :=
  ⟨by decide, (c8_extend defaultMapper "newParam" "NewParam" (some "boolean") (by decide)).1⟩

/-- Claim C9, counterexample.  The falsy number `0` is not nullish, yet
`map({toString: 0})` forwards nothing: the inherited
`Object.prototype.toString` lookup throws `TypeError` before the value
is written anywhere. -/
theorem c9_counterexample :
    jsNullish (Value.num 0) = false ∧
    mapParameters defaultMapper [("toString", Value.num 0)] =
      Except.error MapErr.typeError :=
  ⟨rfl, rfl⟩

/-- Claim C9, amended.  Nullish entries are always dropped — the skip
test precedes the table read, so `null`/`undefined` are dropped even
under prototype-name keys — and the test holds exactly for those two
values: `false`, `0` and `""` are not nullish, and for every key that
is not an inherited `Object.prototype` name a non-nullish single entry
is forwarded as exactly one output entry. -/
theorem c9_nullish (k : String) (v : Value) :
    (jsNullish Value.null = true ∧ jsNullish Value.undef = true ∧
     jsNullish (Value.bool false) = false ∧ jsNullish (Value.num 0) = false ∧
     jsNullish (Value.str "") = false) ∧
    (jsNullish v = true → mapParameters defaultMapper [(k, v)] = Except.ok []) ∧
    (jsNullish v = false → jsIncludes objectPrototypeKeys k = false →
      ∃ k2 v2, mapParameters defaultMapper [(k, v)] = Except.ok [(k2, v2)]) := by
  refine ⟨⟨rfl, rfl, rfl, rfl, rfl⟩, fun h => ?_, fun h hp => ?_⟩
  · simp [mapParameters, mapLoop, mapStep, h, objAssign]
  · rcases hlk : assocGet defaultMapper.knownMappings k with _ | mk
    · have hpl : protoLookup defaultMapper.knownMappings k = TableLookup.missing := by
        simp [protoLookup, hlk, hp]
      exact ⟨smartCaseConversion k, v,
        by simp [mapParameters, mapLoop, mapStep, h, hpl, objAssign, assocSet]⟩
    · have hpl : protoLookup defaultMapper.knownMappings k = TableLookup.ownVal mk := by
        simp [protoLookup, hlk]
      by_cases hmk : mk = ""
      · exact ⟨smartCaseConversion k, v,
          by simp [mapParameters, mapLoop, mapStep, h, hpl, hmk, objAssign, assocSet]⟩
      · cases hdot : jsIncludesDot mk
        · have hmkp : ¬ mk = "__proto__" := fun he =>
            default_no_proto_target (he ▸ assocGet_mem _ _ _ hlk)
          exact ⟨mk, convertType defaultMapper mk v,
            by simp [mapParameters, mapLoop, mapStep, h, hpl, hmk, hdot, hmkp,
              objAssign, assocSet]⟩
        · have hmk2 : mk = "CreateBucketConfiguration.LocationConstraint" :=
            default_targets_dot mk (assocGet_mem _ _ _ hlk) hdot
          subst hmk2
          refine ⟨"CreateBucketConfiguration", Value.obj [("LocationConstraint", v)], ?_⟩
          have hsplit : jsSplitDot "CreateBucketConfiguration.LocationConstraint" =
              ["CreateBucketConfiguration", "LocationConstraint"] := rfl
          have hcbc : jsIncludes objectPrototypeKeys "CreateBucketConfiguration" = false := rfl
          have hh : handleNestedParameter [] "CreateBucketConfiguration.LocationConstraint" v =
              Except.ok [("CreateBucketConfiguration",
                Value.obj [("LocationConstraint", v)])] := by
            simp [handleNestedParameter, hsplit, hcbc, assocGet, assocSet]
          simp [mapParameters, mapLoop, mapStep, h, hpl, hmk, hdot, hh, objAssign]

/-- Claim C9, witness: the falsy number `0` under an ordinary key is
not nullish and is forwarded to the output. -/
theorem c9_nullish_witness :
    jsNullish (Value.num 0) = false ∧
    jsIncludes objectPrototypeKeys "flagParam" = false ∧
    (∃ k2 v2, mapParameters defaultMapper [("flagParam", Value.num 0)] =
      Except.ok [(k2, v2)]) :=
  ⟨rfl, rfl, (c9_nullish "flagParam" (Value.num 0)).2.2 rfl rfl⟩

/-- Claim C10.  A table entry whose target contains a dot but does not
split into exactly two segments is silently skipped: for every
non-nullish value under that source key, the single-entry `map` returns
the empty output and raises nothing. -/
theorem c10_malformed_nested (m : ParameterMapper) (k t : String) (v : Value)
    (hk : assocGet m.knownMappings k = some t)
    (hdot : jsIncludesDot t = true)
    (hlen : (jsSplitDot t).length ≠ 2)
    (hv : jsNullish v = false) :
    mapParameters m [(k, v)] = Except.ok [] := by
  have hk2 : protoLookup m.knownMappings k = TableLookup.ownVal t := by
    simp [protoLookup, hk]
  have ht := jsIncludesDot_ne_empty t hdot
  have hh : handleNestedParameter [] t v = Except.ok [] := by
    rcases hsplit : jsSplitDot t with _ | ⟨P, _ | ⟨C, _ | ⟨x, xs⟩⟩⟩
    · simp [handleNestedParameter, hsplit]
    · simp [handleNestedParameter, hsplit]
    · rw [hsplit] at hlen; simp at hlen
    · simp [handleNestedParameter, hsplit]
  simp [mapParameters, mapLoop, mapStep, hk2, ht, hdot, hh, hv, objAssign]

/-- Claim C10, witness: after registering the three-segment target
`A.B.C`, mapping `{weird: "x"}` yields the empty output. -/
theorem c10_malformed_nested_witness :
    assocGet (addMapping defaultMapper "weird" "A.B.C" none).knownMappings "weird" =
      some "A.B.C" ∧
    (jsSplitDot "A.B.C").length ≠ 2 ∧
    mapParameters (addMapping defaultMapper "weird" "A.B.C" none) [("weird", Value.str "x")] =
      Except.ok [] :=
  ⟨rfl, by decide, c10_malformed_nested (addMapping defaultMapper "weird" "A.B.C" none)
    "weird" "A.B.C" (Value.str "x") rfl rfl (by decide) rfl⟩
